import Mathlib

/-
  Shallow embedding of the tt-logger library (tenstorrent/tt-logger).

  The library is a header-only layer over spdlog and fmt. The embedding
  models the observable effect of one logging call as an optional message
  handed to the spdlog backend: `none` when the call is filtered out,
  `some m` when the backend receives a message `m` carrying the severity
  level and the fully formatted payload string.

  Sources embedded:
    - include/tt-logger/tt-logger.hpp   (LogType, log_type_names,
      logtype_to_string, log_impl, the per-level dispatchers log_trace,
      log_debug, log_info, log_warning, log_error, log_critical, log_fatal)
    - include/tt-logger/tt-logger-initializer.hpp   (create_sink,
      configure_logger, LoggerInitializer)
-/

namespace TTLogger

/-- Severity levels of the spdlog backend, in the order of the
`spdlog::level::level_enum` enumerators: trace(0), debug(1), info(2),
warn(3), err(4), critical(5), off(6). -/
inductive Level where
  | trace
  | debug
  | info
  | warn
  | err
  | critical
  | off
deriving DecidableEq, Repr

/-- Numeric value of a `spdlog::level::level_enum` enumerator. -/
def Level.toNat : Level → Nat
  | .trace => 0
  | .debug => 1
  | .info => 2
  | .warn => 3
  | .err => 4
  | .critical => 5
  | .off => 6

/-- State of the spdlog backend visible to tt-logger: the runtime severity
threshold of the default logger (`level_` inside spdlog). -/
structure SpdlogState where
  threshold : Level
deriving DecidableEq, Repr

/-- Backend check `spdlog::should_log(level)`: a message at `level` passes
exactly when `level >= level_`, that is when the runtime threshold is at or
below the message level. -/
def shouldLog (st : SpdlogState) (level : Level) : Bool :=
  st.threshold.toNat ≤ level.toNat

/-- The `tt::LogType` enumeration, generated from the `TT_LOGGER_TYPES`
X-macro list in tt-logger.hpp; enumerator values run 0..15 in declaration
order. -/
inductive LogType where
  | LogAlways
  | LogTest
  | LogTimer
  | LogDevice
  | LogLLRuntime
  | LogLoader
  | LogBuildKernels
  | LogVerif
  | LogOp
  | LogDispatch
  | LogFabric
  | LogMetal
  | LogTTNN
  | LogMetalTrace
  | LogSiliconDriver
  | LogEmulationDriver
deriving DecidableEq, Repr

/-- Underlying integer value of each `LogType` enumerator. -/
def LogType.val : LogType → Nat
  | .LogAlways => 0
  | .LogTest => 1
  | .LogTimer => 2
  | .LogDevice => 3
  | .LogLLRuntime => 4
  | .LogLoader => 5
  | .LogBuildKernels => 6
  | .LogVerif => 7
  | .LogOp => 8
  | .LogDispatch => 9
  | .LogFabric => 10
  | .LogMetal => 11
  | .LogTTNN => 12
  | .LogMetalTrace => 13
  | .LogSiliconDriver => 14
  | .LogEmulationDriver => 15

/-- The array `log_type_names` of tt-logger.hpp: the stringified
`TT_LOGGER_TYPES` entries, indexed by the `LogType` enumerator value; its
declared size is `size_t(LogType::LogEmulationDriver) + 1 = 16`. -/
def log_type_names : List String :=
  [ "Always"
  , "Test"
  , "Timer"
  , "Device"
  , "LLRuntime"
  , "Loader"
  , "BuildKernels"
  , "Verif"
  , "Op"
  , "Dispatch"
  , "Fabric"
  , "Metal"
  , "TTNN"
  , "MetalTrace"
  , "SiliconDriver"
  , "EmulationDriver" ]

/-- The function `logtype_to_string` of tt-logger.hpp applied to an index
already cast to `size_t`: `idx < log_type_names.size() ? log_type_names[idx]
: "UnknownType"`. In-bounds array access is modelled by `List.getD`, whose
default is never reached when the bound holds. -/
def logtype_to_string_at (idx : Nat) : String :=
  if idx < log_type_names.length then log_type_names.getD idx "UnknownType"
  else "UnknownType"

/-- The C++ conversion `static_cast<std::size_t>(i)` for an `int` value
`i`: reduction modulo 2^64 on a 64-bit target. -/
def size_t_of_int (i : Int) : Nat :=
  (i % (2 ^ 64 : Int)).toNat

/-- `logtype_to_string` called on a `LogType` value obtained by casting an
arbitrary integer, as in `logtype_to_string(static_cast<LogType>(i))`. -/
def logtype_to_string_int (i : Int) : String :=
  logtype_to_string_at (size_t_of_int i)

/-- The function `logtype_to_string` of tt-logger.hpp on a proper
enumerator. -/
def logtype_to_string (t : LogType) : String :=
  logtype_to_string_at t.val

/-- One message handed to the spdlog backend by `spdlog::log(loc, level,
fmt, args...)`: its severity level and the formatted payload. Source
location is not modelled; it does not affect any claim. -/
structure Message where
  level : Level
  payload : String
deriving DecidableEq, Repr

/-- Branch of `log_impl` taken when the first argument is a `LogType` and
at least one format argument follows (`msg` is the already formatted
`fmt::format(rest...)`): emit `"[{}] {}"` with the category and the
message when `spdlog::should_log(level)` holds, where the category formats
through `logtype_to_string` via the `fmt::formatter<tt::LogType>`
specialisation. -/
def log_impl_tagged (st : SpdlogState) (level : Level) (type : LogType)
    (msg : String) : Option Message :=
  if shouldLog st level then
    some { level := level
         , payload := "[" ++ logtype_to_string type ++ "] " ++ msg }
  else none

/-- Branch of `log_impl` taken when the first argument is a `LogType` and
no format arguments follow: emit `"[{}]"` with just the category when
`spdlog::should_log(level)` holds. -/
def log_impl_tag_only (st : SpdlogState) (level : Level) (type : LogType) :
    Option Message :=
  if shouldLog st level then
    some { level := level, payload := "[" ++ logtype_to_string type ++ "]" }
  else none

/-- Branch of `log_impl` taken when the first argument is not a `LogType`
(it is the format string; `msg` is the formatted
`fmt::format(first, rest...)`): emit `"[{}] {}"` with
`LogType::LogAlways` as the category when `spdlog::should_log(level)`
holds. -/
def log_impl_untagged (st : SpdlogState) (level : Level) (msg : String) :
    Option Message :=
  if shouldLog st level then
    some { level := level
         , payload := "[" ++ logtype_to_string LogType.LogAlways ++ "] " ++ msg }
  else none

/-- The dispatcher `log_trace` of tt-logger.hpp called with a category,
a format string and arguments: its constructor calls `log_impl` at
`spdlog::level::trace`. -/
def log_trace (st : SpdlogState) (type : LogType) (msg : String) :
    Option Message :=
  log_impl_tagged st Level.trace type msg

/-- The dispatcher `log_trace` called with a format string and no
category. -/
def log_trace_str (st : SpdlogState) (msg : String) : Option Message :=
  log_impl_untagged st Level.trace msg

/-- The dispatcher `log_debug` called with a category: `log_impl` at
`spdlog::level::debug`. -/
def log_debug (st : SpdlogState) (type : LogType) (msg : String) :
    Option Message :=
  log_impl_tagged st Level.debug type msg

/-- The dispatcher `log_debug` called with a format string and no
category. -/
def log_debug_str (st : SpdlogState) (msg : String) : Option Message :=
  log_impl_untagged st Level.debug msg

/-- The dispatcher `log_info` called with a category: `log_impl` at
`spdlog::level::info`. -/
def log_info (st : SpdlogState) (type : LogType) (msg : String) :
    Option Message :=
  log_impl_tagged st Level.info type msg

/-- The dispatcher `log_info` called with a format string and no
category. -/
def log_info_str (st : SpdlogState) (msg : String) : Option Message :=
  log_impl_untagged st Level.info msg

/-- The dispatcher `log_info` called with a category and nothing else,
as in the repository test `log_info(tt::LogMetal)`. -/
def log_info_tag_only (st : SpdlogState) (type : LogType) : Option Message :=
  log_impl_tag_only st Level.info type

/-- The dispatcher `log_warning` called with a category: `log_impl` at
`spdlog::level::warn`. -/
def log_warning (st : SpdlogState) (type : LogType) (msg : String) :
    Option Message :=
  log_impl_tagged st Level.warn type msg

/-- The dispatcher `log_warning` called with a format string and no
category. -/
def log_warning_str (st : SpdlogState) (msg : String) : Option Message :=
  log_impl_untagged st Level.warn msg

/-- The dispatcher `log_error` called with a category: `log_impl` at
`spdlog::level::err`. -/
def log_error (st : SpdlogState) (type : LogType) (msg : String) :
    Option Message :=
  log_impl_tagged st Level.err type msg

/-- The dispatcher `log_error` called with a format string and no
category. -/
def log_error_str (st : SpdlogState) (msg : String) : Option Message :=
  log_impl_untagged st Level.err msg

/-- The dispatcher `log_critical` called with a category: `log_impl` at
`spdlog::level::critical`. -/
def log_critical (st : SpdlogState) (type : LogType) (msg : String) :
    Option Message :=
  log_impl_tagged st Level.critical type msg

/-- The dispatcher `log_critical` called with a format string and no
category. -/
def log_critical_str (st : SpdlogState) (msg : String) : Option Message :=
  log_impl_untagged st Level.critical msg

/-- The dispatcher `log_fatal` called with a category: its constructor in
tt-logger.hpp also calls `log_impl` at `spdlog::level::critical`. -/
def log_fatal (st : SpdlogState) (type : LogType) (msg : String) :
    Option Message :=
  log_impl_tagged st Level.critical type msg

/-- The dispatcher `log_fatal` called with a format string and no
category. -/
def log_fatal_str (st : SpdlogState) (msg : String) : Option Message :=
  log_impl_untagged st Level.critical msg

/-- An spdlog output sink as selected by the initializer: either
`spdlog::sinks::stdout_color_sink_mt` or
`spdlog::sinks::basic_file_sink_mt(path, truncate)`. -/
inductive Sink where
  | console
  | file (path : String) (truncate : Bool)
deriving DecidableEq, Repr

/-- `LoggerInitializer::create_sink` of tt-logger-initializer.hpp: a
colored console sink when the path is empty, otherwise a truncating file
sink on the given path. -/
def create_sink (file_path : String) : Sink :=
  if file_path = "" then Sink.console
  else Sink.file file_path true

/-- The default logger configuration installed by
`LoggerInitializer::configure_logger`: the logger built over the given
sinks, the pattern when one was set, and the flush-on level. -/
structure LoggerConfig where
  sinks : List Sink
  pattern : Option String
  flushOn : Level
deriving DecidableEq, Repr

/-- `LoggerInitializer::configure_logger`: build a logger over exactly the
one given sink, install it as the default logger, set the pattern when it
is non-empty, and flush on `err`. -/
def configure_logger (sink : Sink) (pattern : String) : LoggerConfig :=
  { sinks := [sink]
  , pattern := if pattern = "" then none else some pattern
  , flushOn := Level.err }

/-- The spdlog helper `spdlog::level::from_str` as used through
`load_env_levels`: recognises the level names, defaulting to `off` for an
unrecognised value. -/
def level_from_str (s : String) : Level :=
  if s = "trace" then Level.trace
  else if s = "debug" then Level.debug
  else if s = "info" then Level.info
  else if s = "warning" then Level.warn
  else if s = "warn" then Level.warn
  else if s = "error" then Level.err
  else if s = "err" then Level.err
  else if s = "critical" then Level.critical
  else if s = "off" then Level.off
  else Level.off

/-- The backend call `spdlog::cfg::load_env_levels(level_env)`: parse the
value of the level environment variable into the runtime threshold; the
threshold stays at the spdlog default `info` when the variable is unset. -/
def load_env_levels (v : Option String) : Level :=
  match v with
  | none => Level.info
  | some s => level_from_str s

/-- Observable result of running the `LoggerInitializer` constructor: the
installed default-logger configuration and the runtime severity
threshold. -/
structure InitResult where
  config : LoggerConfig
  threshold : Level
deriving DecidableEq, Repr

/-- The `LoggerInitializer` constructor of tt-logger-initializer.hpp. The
process environment is modelled as a lookup function from variable names
to optional values; the constructor reads `file_env` (default argument
"TT_LOGGER_FILE") to choose the sink, configures the default logger with
the given pattern, and reads `level_env` (default argument
"TT_LOGGER_LEVEL") through `load_env_levels` to set the threshold. -/
def LoggerInitializer (env : String → Option String) (file_env : String)
    (level_env : String) (pattern : String) : InitResult :=
  let file_path := (env file_env).getD ""
  let sink := create_sink file_path
  { config := configure_logger sink pattern
  , threshold := load_env_levels (env level_env) }

/-- Proposition formalising the payload shape stated by the
specification: the payload is the bracketed category name, a space, and
some formatted message. -/
def payload_has_spec_form (t : LogType) (payload : String) : Prop :=
  ∃ m : String, payload = "[" ++ logtype_to_string t ++ "] " ++ m

/-- A concrete process environment in which only the category-filter
variable documented by the README is set. -/
def env_types_set (v : String) : Option String :=
  if v = "TT_LOGGER_TYPES" then some "Device" else none

/-- A concrete process environment with no variable set. -/
def env_empty (_ : String) : Option String :=
  none

theorem isSome_log_impl_tagged (st : SpdlogState) (lvl : Level)
    (t : LogType) (msg : String) :
    (log_impl_tagged st lvl t msg).isSome = shouldLog st lvl := by
  unfold log_impl_tagged
  split <;> simp_all

theorem isSome_log_impl_untagged (st : SpdlogState) (lvl : Level)
    (msg : String) :
    (log_impl_untagged st lvl msg).isSome = shouldLog st lvl := by
  unfold log_impl_untagged
  split <;> simp_all

theorem isSome_log_impl_tag_only (st : SpdlogState) (lvl : Level)
    (t : LogType) :
    (log_impl_tag_only st lvl t).isSome = shouldLog st lvl := by
  unfold log_impl_tag_only
  split <;> simp_all

theorem map_level_log_impl_tagged (st : SpdlogState) (lvl : Level)
    (t : LogType) (msg : String) :
    (log_impl_tagged st lvl t msg).map Message.level =
      (if shouldLog st lvl then some lvl else none) := by
  unfold log_impl_tagged
  split <;> rfl

theorem table_lookup_in_range :
    ∀ n : Nat, n < log_type_names.length →
      log_type_names.getD n "UnknownType" ∈ log_type_names ∧
      log_type_names.getD n "UnknownType" ≠ "UnknownType" := by
  decide

/-- C1: the claim states that LoggerInitializer populates a set of enabled
log categories from an environment variable (all enabled by default) and
that calls tagged with a category outside the set emit nothing. The code
has no such mechanism: the constructor reads only the file and level
variables, so an environment that sets only TT_LOGGER_TYPES produces
exactly the same initializer result as an empty environment, and log_impl
emits a message for a category (here LogTest, with TT_LOGGER_TYPES
naming only Device) whenever the severity threshold alone passes. -/
theorem C1_no_category_filter :
    LoggerInitializer env_types_set "TT_LOGGER_FILE" "TT_LOGGER_LEVEL" "" =
      LoggerInitializer env_empty "TT_LOGGER_FILE" "TT_LOGGER_LEVEL" "" ∧
    log_impl_tagged { threshold := Level.info } Level.info LogType.LogTest
        "message" =
      some { level := Level.info, payload := "[Test] message" } := by
  exact ⟨rfl, rfl⟩

/-- C2: the claim states that calls at severity levels below the
compile-time active level are eliminated and never reach the backend.
The dispatchers never consult a compile-time level: with the default
compile-time active level of the backend (info), a trace call and a debug
call both still reach the backend whenever the runtime threshold admits
them, as the code and its own test suite require. -/
theorem C2_no_compile_time_elimination :
    log_trace { threshold := Level.trace } LogType.LogOp "trace call" =
      some { level := Level.trace, payload := "[Op] trace call" } ∧
    log_debug { threshold := Level.debug } LogType.LogDevice "Should appear" =
      some { level := Level.debug, payload := "[Device] Should appear" } := by
  exact ⟨rfl, rfl⟩

/-- C3: a logging call at severity level L emits a message to the backend
if and only if L is at or above the runtime threshold T, in every calling
form of log_impl. -/
theorem C3_threshold_gating :
    ∀ (st : SpdlogState) (lvl : Level) (t : LogType) (msg : String),
      ((log_impl_tagged st lvl t msg).isSome = true ↔
        st.threshold.toNat ≤ lvl.toNat) ∧
      ((log_impl_untagged st lvl msg).isSome = true ↔
        st.threshold.toNat ≤ lvl.toNat) ∧
      ((log_impl_tag_only st lvl t).isSome = true ↔
        st.threshold.toNat ≤ lvl.toNat) := by
  intro st lvl t msg
  rw [isSome_log_impl_tagged, isSome_log_impl_untagged,
    isSome_log_impl_tag_only]
  unfold shouldLog
  simp

/-- C4: for every environment the LoggerInitializer constructor installs
exactly one sink, chosen by the file-path environment variable: a colored
console sink when the variable is unset or empty, and a file sink on the
named path otherwise. -/
theorem C4_sink_selection :
    ∀ (env : String → Option String) (file_env level_env pattern : String),
      (LoggerInitializer env file_env level_env pattern).config.sinks =
        [ match env file_env with
          | none => Sink.console
          | some s => if s = "" then Sink.console else Sink.file s true ] := by
  intro env file_env level_env pattern
  unfold LoggerInitializer configure_logger create_sink
  cases h : env file_env <;> simp [h]

/-- C5: a logging call whose first argument is a format string rather than
a LogType is routed into the backend exactly as the same call with
LogAlways as its category, at every severity level and threshold. -/
theorem C5_untagged_is_LogAlways :
    ∀ (st : SpdlogState) (lvl : Level) (msg : String),
      log_impl_untagged st lvl msg =
        log_impl_tagged st lvl LogType.LogAlways msg := by
  intro st lvl msg
  rfl

/-- C6 counterexample: the claim states that every emitted payload has the
form bracketed category name, space, formatted message. The call
log_info(tt::LogMetal), which passes a category and no format string,
emits the payload consisting of the bracketed name alone, which does not
have that form for any message string. -/
theorem C6_counterexample :
    (log_info_tag_only { threshold := Level.info } LogType.LogMetal).map
        Message.payload = some "[Metal]" ∧
    ¬ payload_has_spec_form LogType.LogMetal "[Metal]" := by
  constructor
  · rfl
  · rintro ⟨m, hm⟩
    have hlen := congrArg String.length hm
    rw [String.length_append] at hlen
    have h1 : ("[Metal]" : String).length = 7 := rfl
    have h2 : ("[" ++ logtype_to_string LogType.LogMetal ++ "] " :
        String).length = 8 := rfl
    rw [h1, h2] at hlen
    omega

/-- C6 amended: a call that passes a category and a format string emits
the payload bracketed category name, space, formatted message; a call
that passes only a category emits just the bracketed category name; a
call with no category uses the LogAlways name. -/
theorem C6_payload_form :
    ∀ (st : SpdlogState) (lvl : Level) (t : LogType) (msg : String),
      ((log_impl_tagged st lvl t msg).map Message.payload =
        (if shouldLog st lvl then
          some ("[" ++ logtype_to_string t ++ "] " ++ msg) else none)) ∧
      ((log_impl_tag_only st lvl t).map Message.payload =
        (if shouldLog st lvl then
          some ("[" ++ logtype_to_string t ++ "]") else none)) ∧
      ((log_impl_untagged st lvl msg).map Message.payload =
        (if shouldLog st lvl then
          some ("[" ++ logtype_to_string LogType.LogAlways ++ "] " ++ msg)
        else none)) := by
  intro st lvl t msg
  refine ⟨?_, ?_, ?_⟩
  · unfold log_impl_tagged
    split <;> rfl
  · unfold log_impl_tag_only
    split <;> rfl
  · unfold log_impl_untagged
    split <;> rfl

/-- C7: the static category table has exactly 16 entries; for each
LogType enumerator the table entry at its index is the category name
without the Log prefix, and logtype_to_string returns exactly that
name. -/
theorem C7_category_table :
    log_type_names.length = 16 ∧
    (log_type_names.getD LogType.LogAlways.val "" = "Always" ∧
      logtype_to_string LogType.LogAlways = "Always") ∧
    (log_type_names.getD LogType.LogTest.val "" = "Test" ∧
      logtype_to_string LogType.LogTest = "Test") ∧
    (log_type_names.getD LogType.LogTimer.val "" = "Timer" ∧
      logtype_to_string LogType.LogTimer = "Timer") ∧
    (log_type_names.getD LogType.LogDevice.val "" = "Device" ∧
      logtype_to_string LogType.LogDevice = "Device") ∧
    (log_type_names.getD LogType.LogLLRuntime.val "" = "LLRuntime" ∧
      logtype_to_string LogType.LogLLRuntime = "LLRuntime") ∧
    (log_type_names.getD LogType.LogLoader.val "" = "Loader" ∧
      logtype_to_string LogType.LogLoader = "Loader") ∧
    (log_type_names.getD LogType.LogBuildKernels.val "" = "BuildKernels" ∧
      logtype_to_string LogType.LogBuildKernels = "BuildKernels") ∧
    (log_type_names.getD LogType.LogVerif.val "" = "Verif" ∧
      logtype_to_string LogType.LogVerif = "Verif") ∧
    (log_type_names.getD LogType.LogOp.val "" = "Op" ∧
      logtype_to_string LogType.LogOp = "Op") ∧
    (log_type_names.getD LogType.LogDispatch.val "" = "Dispatch" ∧
      logtype_to_string LogType.LogDispatch = "Dispatch") ∧
    (log_type_names.getD LogType.LogFabric.val "" = "Fabric" ∧
      logtype_to_string LogType.LogFabric = "Fabric") ∧
    (log_type_names.getD LogType.LogMetal.val "" = "Metal" ∧
      logtype_to_string LogType.LogMetal = "Metal") ∧
    (log_type_names.getD LogType.LogTTNN.val "" = "TTNN" ∧
      logtype_to_string LogType.LogTTNN = "TTNN") ∧
    (log_type_names.getD LogType.LogMetalTrace.val "" = "MetalTrace" ∧
      logtype_to_string LogType.LogMetalTrace = "MetalTrace") ∧
    (log_type_names.getD LogType.LogSiliconDriver.val "" = "SiliconDriver" ∧
      logtype_to_string LogType.LogSiliconDriver = "SiliconDriver") ∧
    (log_type_names.getD LogType.LogEmulationDriver.val "" =
        "EmulationDriver" ∧
      logtype_to_string LogType.LogEmulationDriver = "EmulationDriver") := by
  decide

/-- C8: there is one dispatcher per severity level, each forwarding its
arguments to log_impl at its corresponding backend level, and each
emission carries exactly that level and is gated on it. -/
theorem C8_level_dispatchers :
    ∀ (st : SpdlogState) (t : LogType) (msg : String),
      (log_trace st t msg = log_impl_tagged st Level.trace t msg ∧
        log_trace_str st msg = log_impl_untagged st Level.trace msg ∧
        (log_trace st t msg).map Message.level =
          (if shouldLog st Level.trace then some Level.trace else none)) ∧
      (log_debug st t msg = log_impl_tagged st Level.debug t msg ∧
        log_debug_str st msg = log_impl_untagged st Level.debug msg ∧
        (log_debug st t msg).map Message.level =
          (if shouldLog st Level.debug then some Level.debug else none)) ∧
      (log_info st t msg = log_impl_tagged st Level.info t msg ∧
        log_info_str st msg = log_impl_untagged st Level.info msg ∧
        (log_info st t msg).map Message.level =
          (if shouldLog st Level.info then some Level.info else none)) ∧
      (log_warning st t msg = log_impl_tagged st Level.warn t msg ∧
        log_warning_str st msg = log_impl_untagged st Level.warn msg ∧
        (log_warning st t msg).map Message.level =
          (if shouldLog st Level.warn then some Level.warn else none)) ∧
      (log_error st t msg = log_impl_tagged st Level.err t msg ∧
        log_error_str st msg = log_impl_untagged st Level.err msg ∧
        (log_error st t msg).map Message.level =
          (if shouldLog st Level.err then some Level.err else none)) ∧
      (log_critical st t msg = log_impl_tagged st Level.critical t msg ∧
        log_critical_str st msg = log_impl_untagged st Level.critical msg ∧
        (log_critical st t msg).map Message.level =
          (if shouldLog st Level.critical then some Level.critical
          else none)) := by
  intro st t msg
  exact ⟨⟨rfl, rfl, map_level_log_impl_tagged st Level.trace t msg⟩,
    ⟨rfl, rfl, map_level_log_impl_tagged st Level.debug t msg⟩,
    ⟨rfl, rfl, map_level_log_impl_tagged st Level.info t msg⟩,
    ⟨rfl, rfl, map_level_log_impl_tagged st Level.warn t msg⟩,
    ⟨rfl, rfl, map_level_log_impl_tagged st Level.err t msg⟩,
    ⟨rfl, rfl, map_level_log_impl_tagged st Level.critical t msg⟩⟩

/-- C9: logtype_to_string is total over every integer cast to LogType: it
always returns one of the table entries or the sentinel, and it returns
UnknownType exactly when the size_t value of the input is at or beyond
the size of log_type_names. -/
theorem C9_logtype_to_string_total :
    ∀ i : Int,
      (logtype_to_string_int i ∈ log_type_names ∨
        logtype_to_string_int i = "UnknownType") ∧
      (logtype_to_string_int i = "UnknownType" ↔
        log_type_names.length ≤ size_t_of_int i) := by
  intro i
  unfold logtype_to_string_int logtype_to_string_at
  by_cases h : size_t_of_int i < log_type_names.length
  · rw [if_pos h]
    obtain ⟨hmem, hne⟩ := table_lookup_in_range _ h
    refine ⟨Or.inl hmem, ?_, ?_⟩
    · intro hu
      exact absurd hu hne
    · intro hle
      omega
  · rw [if_neg h]
    refine ⟨Or.inr rfl, ?_, ?_⟩
    · intro _
      omega
    · intro _
      rfl

/-- C10: log_fatal is an alias for the critical level: on every argument
list and every threshold it emits exactly what log_critical emits. -/
theorem C10_fatal_is_critical :
    ∀ (st : SpdlogState) (t : LogType) (msg : String),
      log_fatal st t msg = log_critical st t msg ∧
      log_fatal_str st msg = log_critical_str st msg := by
  intro st t msg
  exact ⟨rfl, rfl⟩

end TTLogger
